import Mathlib

/-!
Shallow embedding of the address-resolution and geocode-cache subsystem of
`backend/data_pipeline/geocoder.py` (the BloodDonation repository), together
with proofs about it.

Modelling conventions:
* Python `str.strip()` is modelled by `pyStrip`, `str.rstrip(',')` by
  `pyRStripComma` (both operate on the character list of the string).
* The external library function `unidecode` is an abstract parameter
  `unidec : String → String`; for concrete ASCII inputs it is the identity,
  and theorems that need a fact about it state that fact as a hypothesis.
* The SQLite `geocache` table (`key TEXT PRIMARY KEY, lat, lon, is_exact,
  updated_at`) is modelled as a list of `CacheRow`; `INSERT OR REPLACE` on
  the primary key deletes any row with the same key and inserts the new row;
  `SELECT ... WHERE key=?` with `fetchone` is `List.find?`.
* `datetime('now')` is an explicit `now : Nat` argument.
* Python floats carry no arithmetic in this code, so coordinates are
  modelled as `Rat`.
* The HTTP layer of `google_geocode` is modelled by an `ApiResponse` value:
  a parsed JSON body (status string plus the list of result locations), a
  transport failure (`requests` exception), or a malformed body
  (`KeyError`/`IndexError` while extracting the location).
-/

namespace BloodDonation

/-- Python `str.strip()`: drop leading and trailing whitespace characters. -/
def pyStrip (s : String) : String :=
  (((s.toList.dropWhile Char.isWhitespace).reverse.dropWhile Char.isWhitespace).reverse).asString

/-- Python `str.rstrip(',')`: drop trailing comma characters. -/
def pyRStripComma (s : String) : String :=
  ((s.toList.reverse.dropWhile (fun c => c == ',')).reverse).asString

/-- An address record: the four fields `item.get(...)` reads in
`geocoder.py`, each defaulting to the empty string. -/
structure Item where
  City : String
  Street : String
  NumHouse : String
  Name : String
deriving Repr, DecidableEq

/-- One row of the `geocache` table (schema in `backend/db/schema.py`):
`key TEXT PRIMARY KEY, lat REAL, lon REAL, is_exact INTEGER, updated_at TEXT`. -/
structure CacheRow where
  key : String
  lat : Rat
  lon : Rat
  is_exact : Bool
  updated_at : Nat
deriving Repr, DecidableEq

/-- The parsed JSON body of a Places Text Search response, as far as
`google_geocode` inspects it: the `status` field and the
`results[i].geometry.location` coordinates. -/
structure ApiData where
  status : String
  results : List (Rat × Rat)
deriving Repr, DecidableEq

/-- Outcome of the HTTP call made by `google_geocode`: a parsed body, a
transport failure (`requests.exceptions.RequestException`, including
`raise_for_status`), or a body whose shape breaks the field access
(`KeyError`/`IndexError`). -/
inductive ApiResponse where
  | ok (data : ApiData)
  | transportFailure
  | malformed
deriving Repr, DecidableEq

/-- `google_geocode` of `geocoder.py`, as a function of the HTTP outcome:
returns the first result's location when `status == 'OK'` and `results` is
non-empty; returns `none` otherwise, and also on a transport failure or a
malformed body (both `except` arms fall through to `return None`). -/
def google_geocode (resp : ApiResponse) : Option (Rat × Rat) :=
  match resp with
  | ApiResponse.ok data =>
    if data.status = "OK" ∧ data.results ≠ [] then data.results.head? else none
  | ApiResponse.transportFailure => none
  | ApiResponse.malformed => none

/-- `get_from_cache`: `SELECT lat, lon FROM geocache WHERE key=?`, `fetchone`;
the row, when present, is the pair `(lat, lon)`. -/
def get_from_cache (db : List CacheRow) (key : String) : Option (Rat × Rat) :=
  match db.find? (fun r => r.key == key) with
  | some row => some (row.lat, row.lon)
  | none => none

/-- `save_to_cache`: `INSERT OR REPLACE INTO geocache` with `key` the primary
key — any existing row with this key is replaced by the new row. -/
def save_to_cache (db : List CacheRow) (key : String) (lat lon : Rat)
    (is_exact : Bool) (now : Nat) : List CacheRow :=
  db.filter (fun r => r.key != key) ++ [⟨key, lat, lon, is_exact, now⟩]

/-- `create_address_key`: trim the four fields, interpolate them as
`f"{city}, {street}, {num}, {name}"`, then `.strip().rstrip(',')`. -/
def create_address_key (item : Item) : String :=
  let city := pyStrip item.City
  let street := pyStrip item.Street
  let num := pyStrip item.NumHouse
  let name := pyStrip item.Name
  pyRStripComma (pyStrip (city ++ ", " ++ street ++ ", " ++ num ++ ", " ++ name))

/-- The duplicate-removal loop at the end of `_generate_queries`: keep the
first occurrence of each query text, tracking already-seen texts. -/
def dedupQueries : List (String × Bool) → List String → List (String × Bool)
  | [], _ => []
  | (q, flag) :: rest, seen =>
    if seen.contains q then dedupQueries rest seen
    else (q, flag) :: dedupQueries rest (q :: seen)

/-- `_generate_queries(item, use_latin)`: trim each field, transliterate it
when `use_latin`, emit the six specificity tiers guarded by Python truthiness
of their required fields, then remove duplicate texts keeping first-seen
order. Returns `(query_text, is_exact)` pairs. -/
def generate_queries (unidec : String → String) (item : Item) (use_latin : Bool) :
    List (String × Bool) :=
  let tr : String → String := fun s => if use_latin then unidec s else s
  let city := tr (pyStrip item.City)
  let street := tr (pyStrip item.Street)
  let num := tr (pyStrip item.NumHouse)
  let name := tr (pyStrip item.Name)
  let queries :=
    (if name ≠ "" ∧ city ≠ "" ∧ street ≠ "" ∧ num ≠ "" then
      [(city ++ ", " ++ street ++ " " ++ num ++ ", " ++ name, true)] else []) ++
    (if city ≠ "" ∧ street ≠ "" ∧ num ≠ "" then
      [(city ++ ", " ++ street ++ " " ++ num, true)] else []) ++
    (if name ≠ "" ∧ city ≠ "" ∧ street ≠ "" then
      [(city ++ ", " ++ street ++ ", " ++ name, true)] else []) ++
    (if city ≠ "" ∧ street ≠ "" then
      [(city ++ ", " ++ street, true)] else []) ++
    (if name ≠ "" ∧ city ≠ "" then
      [(city ++ ", " ++ name, true)] else []) ++
    (if city ≠ "" then [(city, false)] else [])
  dedupQueries queries []

/-- The combined candidate list of `get_coordinates`:
`_generate_queries(item, use_latin=False) + _generate_queries(item, use_latin=True)`. -/
def all_queries (unidec : String → String) (item : Item) : List (String × Bool) :=
  generate_queries unidec item false ++ generate_queries unidec item true

/-- The `for query, is_exact in all_queries` loop of `get_coordinates`:
skip a candidate whose text is empty or strips to a bare comma; otherwise
call the provider; on the first hit save to the cache and return.  Besides
the result and the updated table, the list of query texts actually submitted
to the provider is returned (in submission order). -/
def tryQueries (g : String → Option (Rat × Rat)) (db : List CacheRow)
    (key : String) (now : Nat) :
    List (String × Bool) → Option (Rat × Rat) × List CacheRow × List String
  | [] => (none, db, [])
  | (query, is_exact) :: rest =>
    if query = "" ∨ pyStrip query = "," then
      tryQueries g db key now rest
    else
      match g query with
      | some (lat, lon) =>
        (some (lat, lon), save_to_cache db key lat lon is_exact now, [query])
      | none =>
        let r := tryQueries g db key now rest
        (r.1, r.2.1, query :: r.2.2)

/-- `get_coordinates`: compute the address key, return a cache hit
immediately, otherwise run the candidate loop.  The provider
`g : String → Option (Rat × Rat)` abstracts `google_geocode` applied to each
query; the third component of the result is the list of provider calls
made. -/
def get_coordinates (unidec : String → String) (g : String → Option (Rat × Rat))
    (now : Nat) (db : List CacheRow) (item : Item) :
    Option (Rat × Rat) × List CacheRow × List String :=
  let address_key := create_address_key item
  match get_from_cache db address_key with
  | some coords => (some coords, db, [])
  | none => tryQueries g db address_key now (all_queries unidec item)

/-- The winning candidate of a resolution: the first pair of the list that is
not skipped by the degenerate-text guard and for which the provider returns
coordinates, together with those coordinates. -/
def firstHit (g : String → Option (Rat × Rat)) :
    List (String × Bool) → Option (String × Bool × (Rat × Rat))
  | [] => none
  | (query, flag) :: rest =>
    if query = "" ∨ pyStrip query = "," then firstHit g rest
    else
      match g query with
      | some c => some (query, flag, c)
      | none => firstHit g rest

/-- The query texts of a candidate list that survive the degenerate-text
guard of the loop, in order. -/
def attempted : List (String × Bool) → List String
  | [] => []
  | (query, _) :: rest =>
    if query = "" ∨ pyStrip query = "," then attempted rest
    else query :: attempted rest

/-- The timestamp-free part of a cache row. -/
def rowData (r : CacheRow) : String × Rat × Rat × Bool :=
  (r.key, r.lat, r.lon, r.is_exact)

/-- The `geocache` table's primary-key property: no two rows share a key. -/
def cacheKeysUnique (db : List CacheRow) : Prop :=
  (db.map CacheRow.key).Nodup

/-! ## Helper lemmas about the cache store -/

/-- Rows whose key was filtered away are not found again. -/
theorem find?_filter_ne (db : List CacheRow) (k : String) :
    (db.filter (fun r => r.key != k)).find? (fun r => r.key == k) = none := by
  induction db with
  | nil => rfl
  | cons r rest ih =>
    by_cases h : r.key = k
    · simp [List.filter_cons, h]
    · simp [List.filter_cons, List.find?_cons, h]

/-- Looking up the key just saved finds exactly the saved row. -/
theorem find?_save (db : List CacheRow) (k : String) (la lo : Rat) (e : Bool) (t : Nat) :
    (save_to_cache db k la lo e t).find? (fun r => r.key == k)
      = some ⟨k, la, lo, e, t⟩ := by
  induction db with
  | nil => simp [save_to_cache, List.find?_cons]
  | cons r rest ih =>
    by_cases h : r.key = k
    · simp [save_to_cache, List.filter_cons, h]
    · simp [save_to_cache, List.filter_cons, List.find?_cons, h]

/-- A cache read immediately after a save returns the saved coordinates. -/
theorem get_from_cache_save (db : List CacheRow) (k : String) (la lo : Rat)
    (e : Bool) (t : Nat) :
    get_from_cache (save_to_cache db k la lo e t) k = some (la, lo) := by
  simp [get_from_cache, find?_save]

/-- Filtering for the key after filtering it away yields nothing. -/
theorem filter_eq_of_filter_ne (db : List CacheRow) (k : String) :
    (db.filter (fun r => r.key != k)).filter (fun r => r.key == k) = [] := by
  induction db with
  | nil => rfl
  | cons r rest ih =>
    by_cases h : r.key = k
    · simp [List.filter_cons, h]
    · simp [List.filter_cons, h]

/-- The key-removing filter is idempotent. -/
theorem filter_ne_idem (db : List CacheRow) (k : String) :
    (db.filter (fun r => r.key != k)).filter (fun r => r.key != k)
      = db.filter (fun r => r.key != k) := by
  induction db with
  | nil => rfl
  | cons r rest ih =>
    by_cases h : r.key = k
    · simp [List.filter_cons, h]
    · simp [List.filter_cons, h]

/-! ## Helper lemmas about the candidate loop -/

/-- When the provider answers `none` for every query, the loop returns
`none`, touches nothing in the table, and submits exactly the candidates
surviving the degenerate-text guard. -/
theorem tryQueries_all_none (g : String → Option (Rat × Rat)) (db : List CacheRow)
    (key : String) (now : Nat) (hg : ∀ q, g q = none) :
    ∀ qs, tryQueries g db key now qs = (none, db, attempted qs) := by
  intro qs
  induction qs with
  | nil => rfl
  | cons p rest ih =>
    obtain ⟨qt, qe⟩ := p
    by_cases hdeg : qt = "" ∨ pyStrip qt = ","
    · simp [tryQueries, attempted, hdeg, ih]
    · simp [tryQueries, attempted, hdeg, hg qt, ih]

/-- If no candidate is degenerate, the loop submits every candidate text. -/
theorem attempted_full :
    ∀ qs : List (String × Bool), (∀ p ∈ qs, ¬(p.1 = "" ∨ pyStrip p.1 = ",")) →
      attempted qs = qs.map Prod.fst := by
  intro qs
  induction qs with
  | nil => intro _; rfl
  | cons p rest ih =>
    intro h
    obtain ⟨qt, qe⟩ := p
    have h1 := h (qt, qe) (List.mem_cons_self _ _)
    simp only [attempted, if_neg h1, List.map_cons]
    exact congrArg (qt :: ·) (ih fun p hp => h p (List.mem_cons_of_mem _ hp))

/-- The loop realises the first hit: if `firstHit` selects candidate
`(q, e)` with coordinates `(la, lo)`, the loop returns those coordinates
and upserts them under the given key with exactness flag `e`. -/
theorem tryQueries_of_firstHit (g : String → Option (Rat × Rat)) (db : List CacheRow)
    (key : String) (now : Nat) :
    ∀ (qs : List (String × Bool)) (q : String) (e : Bool) (la lo : Rat),
      firstHit g qs = some (q, e, (la, lo)) →
      ∃ calls, tryQueries g db key now qs
        = (some (la, lo), save_to_cache db key la lo e now, calls) := by
  intro qs
  induction qs with
  | nil => intro q e la lo h; simp [firstHit] at h
  | cons p rest ih =>
    intro q e la lo h
    obtain ⟨qt, qe⟩ := p
    by_cases hdeg : qt = "" ∨ pyStrip qt = ","
    · rw [firstHit, if_pos hdeg] at h
      obtain ⟨calls, hc⟩ := ih q e la lo h
      exact ⟨calls, by rw [tryQueries, if_pos hdeg]; exact hc⟩
    · rw [firstHit, if_neg hdeg] at h
      cases hgq : g qt with
      | some c =>
        obtain ⟨cla, clo⟩ := c
        rw [hgq] at h
        simp only [Option.some.injEq, Prod.mk.injEq] at h
        obtain ⟨h1, h2, h3, h4⟩ := h
        subst h1; subst h2; subst h3; subst h4
        exact ⟨[qt], by rw [tryQueries, if_neg hdeg, hgq]⟩
      | none =>
        rw [hgq] at h
        obtain ⟨calls, hc⟩ := ih q e la lo h
        refine ⟨qt :: calls, ?_⟩
        rw [tryQueries, if_neg hdeg, hgq]
        simp [hc]

/-! ## Helper lemmas about duplicate removal -/

/-- Peeling the first candidate off the duplicate-removal loop when nothing
has been seen yet. -/
theorem dedupQueries_cons_nil (q : String) (b : Bool) (l : List (String × Bool)) :
    dedupQueries ((q, b) :: l) [] = (q, b) :: dedupQueries l [q] := by
  simp [dedupQueries]

/-- The duplicate-removal loop emits pairwise-distinct texts, none of which
was already seen. -/
theorem dedupQueries_nodup :
    ∀ (l : List (String × Bool)) (seen : List String),
      ((dedupQueries l seen).map Prod.fst).Nodup ∧
      ∀ q ∈ (dedupQueries l seen).map Prod.fst, q ∉ seen := by
  intro l
  induction l with
  | nil => intro seen; simp [dedupQueries]
  | cons p rest ih =>
    intro seen
    obtain ⟨q, b⟩ := p
    by_cases h : seen.contains q
    · rw [dedupQueries, if_pos h]
      exact ih seen
    · rw [dedupQueries, if_neg h]
      have hq : q ∉ seen := by
        intro hmem
        exact h (by simpa using hmem)
      obtain ⟨hnd, hout⟩ := ih (q :: seen)
      refine ⟨?_, ?_⟩
      · simp only [List.map_cons, List.nodup_cons]
        exact ⟨fun hin => hout q hin (List.mem_cons_self _ _), hnd⟩
      · intro x hx
        simp only [List.map_cons, List.mem_cons] at hx
        cases hx with
        | inl hx => subst hx; exact hq
        | inr hx => exact fun hmem => hout x hx (List.mem_cons_of_mem _ hmem)

/-! ## Claim C1 -/

/-- Claim C1 (counterexample): the stored `is_exact` flag is not returned to
the caller on a cache hit — two caches whose entry for the key of the
City-only record `"Tel Aviv"` differ only in `is_exact` produce the very
same caller-visible result, namely just the coordinate pair. -/
theorem cache_hit_drops_exact_flag :
    (get_coordinates id (fun _ => none) 0
        [⟨create_address_key ⟨"Tel Aviv", "", "", ""⟩, 1, 2, true, 0⟩]
        ⟨"Tel Aviv", "", "", ""⟩).1
      = (get_coordinates id (fun _ => none) 0
        [⟨create_address_key ⟨"Tel Aviv", "", "", ""⟩, 1, 2, false, 0⟩]
        ⟨"Tel Aviv", "", "", ""⟩).1
    ∧ (get_coordinates id (fun _ => none) 0
        [⟨create_address_key ⟨"Tel Aviv", "", "", ""⟩, 1, 2, true, 0⟩]
        ⟨"Tel Aviv", "", "", ""⟩).1 = some (1, 2) := by
  decide

/-- Claim C1 (amended): the `is_exact` flag of the winning candidate query is
written unchanged into the cache entry, but it is not part of the value
returned to the caller — on a fresh resolution the caller receives only the
coordinate pair, and a cache hit likewise returns only the stored `lat` and
`lon` of the found row. -/
theorem exact_flag_reaches_cache_not_caller (u : String → String)
    (g : String → Option (Rat × Rat)) (now : Nat) (db : List CacheRow)
    (item : Item) (q : String) (e : Bool) (la lo : Rat)
    (hmiss : get_from_cache db (create_address_key item) = none)
    (hwin : firstHit g (all_queries u item) = some (q, e, (la, lo))) :
    (∃ calls, get_coordinates u g now db item
      = (some (la, lo), save_to_cache db (create_address_key item) la lo e now, calls))
    ∧ (save_to_cache db (create_address_key item) la lo e now).find?
        (fun r => r.key == create_address_key item)
        = some ⟨create_address_key item, la, lo, e, now⟩
    ∧ ∀ (db0 : List CacheRow) (k : String) (row : CacheRow),
        db0.find? (fun r => r.key == k) = some row →
        get_from_cache db0 k = some (row.lat, row.lon) := by
  refine ⟨?_, find?_save db _ la lo e now, ?_⟩
  · obtain ⟨calls, hc⟩ := tryQueries_of_firstHit g db (create_address_key item) now
      (all_queries u item) q e la lo hwin
    exact ⟨calls, by simp [get_coordinates, hmiss, hc]⟩
  · intro db0 k row h
    simp [get_from_cache, h]

/-- Claim C1 (witness): the amended theorem applied to the City-only record
`"Tel Aviv"` with a provider answering only that city query. -/
theorem exact_flag_reaches_cache_not_caller_witness :
    (∃ calls, get_coordinates id
        (fun q => if q == "Tel Aviv" then some ((3 : Rat), (4 : Rat)) else none) 0 []
        ⟨"Tel Aviv", "", "", ""⟩
      = (some (3, 4),
         save_to_cache [] (create_address_key ⟨"Tel Aviv", "", "", ""⟩) 3 4 false 0, calls))
    ∧ (save_to_cache [] (create_address_key ⟨"Tel Aviv", "", "", ""⟩) 3 4 false 0).find?
        (fun r => r.key == create_address_key ⟨"Tel Aviv", "", "", ""⟩)
        = some ⟨create_address_key ⟨"Tel Aviv", "", "", ""⟩, 3, 4, false, 0⟩
    ∧ ∀ (db0 : List CacheRow) (k : String) (row : CacheRow),
        db0.find? (fun r => r.key == k) = some row →
        get_from_cache db0 k = some (row.lat, row.lon) :=
  exact_flag_reaches_cache_not_caller id _ 0 [] ⟨"Tel Aviv", "", "", ""⟩
    "Tel Aviv" false 3 4 rfl (by decide)

/-! ## Claim C2 -/

/-- Claim C2: once `save_to_cache k lat lon exact` has run, `get_coordinates`
on any record whose normalized key equals `k` returns the cached coordinates
immediately, leaves the table unchanged, and performs zero provider calls,
whatever the provider would answer. -/
theorem cache_short_circuit (u : String → String) (g : String → Option (Rat × Rat))
    (now now2 : Nat) (db : List CacheRow) (item : Item) (k : String)
    (la lo : Rat) (e : Bool) (hk : create_address_key item = k) :
    get_coordinates u g now2 (save_to_cache db k la lo e now) item
      = (some (la, lo), save_to_cache db k la lo e now, []) := by
  simp [get_coordinates, hk, get_from_cache_save]

/-- Claim C2 (witness): the short-circuit at the City-only record
`"Tel Aviv"`, whose normalized key is `"Tel Aviv, , "`. -/
theorem cache_short_circuit_witness :
    get_coordinates id (fun _ => some ((9 : Rat), (9 : Rat))) 1
        (save_to_cache [] "Tel Aviv, , " 1 2 true 0) ⟨"Tel Aviv", "", "", ""⟩
      = (some (1, 2), save_to_cache [] "Tel Aviv, , " 1 2 true 0, []) :=
  cache_short_circuit id _ 0 1 [] ⟨"Tel Aviv", "", "", ""⟩ "Tel Aviv, , " 1 2 true
    (by decide)

/-! ## Claim C3 -/

/-- Claim C3 (counterexample): the record with all four fields empty does not
get the empty string as its key — `f"{city}, {street}, {num}, {name}"` of
four empty fields is `", , , "`, `.strip()` leaves `", , ,"`, and
`.rstrip(',')` removes only the trailing comma, leaving `", , "`. -/
theorem empty_record_key_not_empty :
    create_address_key ⟨"", "", "", ""⟩ ≠ ""
    ∧ create_address_key ⟨"", "", "", ""⟩ = ", , " := by
  decide

/-- Claim C3 (amended): `create_address_key` is pure and total and depends
only on the four trimmed fields; it joins them with `", "` unconditionally
and then strips surrounding whitespace and trailing commas, so the trailing
separator disappears only when solely the final fields are empty: the fully
populated record and the Name-empty record get clean keys, while the
City-only record keeps inner separators (`"Tel Aviv, , "`) and the all-empty
record yields `", , "` rather than the empty string. -/
theorem address_key_shape :
    (∀ i1 i2 : Item, pyStrip i1.City = pyStrip i2.City → pyStrip i1.Street = pyStrip i2.Street →
      pyStrip i1.NumHouse = pyStrip i2.NumHouse → pyStrip i1.Name = pyStrip i2.Name →
      create_address_key i1 = create_address_key i2)
    ∧ create_address_key ⟨"", "", "", ""⟩ = ", , "
    ∧ create_address_key ⟨" Tel Aviv ", "Ibn Gabirol", "5", "Community Center"⟩
        = "Tel Aviv, Ibn Gabirol, 5, Community Center"
    ∧ create_address_key ⟨"Tel Aviv", "Ibn Gabirol", "5", ""⟩ = "Tel Aviv, Ibn Gabirol, 5"
    ∧ create_address_key ⟨"Tel Aviv", "", "", ""⟩ = "Tel Aviv, , " := by
  refine ⟨?_, by decide, by decide, by decide, by decide⟩
  intro i1 i2 h1 h2 h3 h4
  simp [create_address_key, h1, h2, h3, h4]

/-- Claim C3 (witness): two records that agree field-wise after trimming get
byte-identical keys. -/
theorem address_key_shape_witness :
    create_address_key ⟨" Rehovot ", "", "", ""⟩
      = create_address_key ⟨"Rehovot", " ", "", ""⟩ :=
  address_key_shape.1 ⟨" Rehovot ", "", "", ""⟩ ⟨"Rehovot", " ", "", ""⟩
    (by decide) (by decide) rfl rfl

/-! ## Claim C4 -/

/-- Claim C4: with all four fields non-empty after trimming, the first native
candidate is the full Name+Street+NumHouse+City combination (formatted
`f"{city}, {street} {num}, {name}"`) with `is_exact = true`; with only City
non-empty, the native generator emits exactly the bare trimmed city with
`is_exact = false`. -/
theorem tier_order (u : String → String) (item : Item) :
    (pyStrip item.City ≠ "" → pyStrip item.Street ≠ "" → pyStrip item.NumHouse ≠ "" →
      pyStrip item.Name ≠ "" →
      (generate_queries u item false).head? =
        some (pyStrip item.City ++ ", " ++ pyStrip item.Street ++ " " ++ pyStrip item.NumHouse
          ++ ", " ++ pyStrip item.Name, true))
    ∧ (pyStrip item.City ≠ "" → pyStrip item.Street = "" → pyStrip item.NumHouse = "" →
      pyStrip item.Name = "" →
      generate_queries u item false = [(pyStrip item.City, false)]) := by
  constructor
  · intro hc hs hn hm
    simp [generate_queries, hc, hs, hn, hm, dedupQueries_cons_nil]
  · intro hc hs hn hm
    simp [generate_queries, hc, hs, hn, hm, dedupQueries]

/-- Claim C4 (witness): the tier-order theorem at a fully populated record
and at a City-only record. -/
theorem tier_order_witness :
    (generate_queries id ⟨"Tel Aviv", "Ibn Gabirol", "5", "Community Center"⟩ false).head?
      = some (pyStrip "Tel Aviv" ++ ", " ++ pyStrip "Ibn Gabirol" ++ " " ++ pyStrip "5"
          ++ ", " ++ pyStrip "Community Center", true)
    ∧ generate_queries id ⟨"Tel Aviv", "", "", ""⟩ false = [(pyStrip "Tel Aviv", false)] :=
  ⟨(tier_order id ⟨"Tel Aviv", "Ibn Gabirol", "5", "Community Center"⟩).1
      (by decide) (by decide) (by decide) (by decide),
   (tier_order id ⟨"Tel Aviv", "", "", ""⟩).2 (by decide) rfl rfl rfl⟩

/-! ## Claim C5 -/

/-- Claim C5 (counterexample): with the spec's provider stub, which only
answers `"Ibn Gabirol 5, Tel Aviv"`, resolution of the scenario record does
not succeed at all — no generated candidate has that text (the second native
candidate is `"Tel Aviv, Ibn Gabirol 5"`), so all twelve candidates are
submitted in vain, nothing is cached, and `none` is returned. -/
theorem scenario_stub_never_matches :
    get_coordinates id
        (fun q => if q == "Ibn Gabirol 5, Tel Aviv" then some ((32 : Rat), (34 : Rat)) else none)
        0 [] ⟨"Tel Aviv", "Ibn Gabirol", "5", "Community Center"⟩
      = (none, [], ["Tel Aviv, Ibn Gabirol 5, Community Center", "Tel Aviv, Ibn Gabirol 5",
          "Tel Aviv, Ibn Gabirol, Community Center", "Tel Aviv, Ibn Gabirol",
          "Tel Aviv, Community Center", "Tel Aviv",
          "Tel Aviv, Ibn Gabirol 5, Community Center", "Tel Aviv, Ibn Gabirol 5",
          "Tel Aviv, Ibn Gabirol, Community Center", "Tel Aviv, Ibn Gabirol",
          "Tel Aviv, Community Center", "Tel Aviv"]) := by
  decide

/-- Claim C5 (amended): with a provider stub answering the code's actual
second native candidate `"Tel Aviv, Ibn Gabirol 5"`, resolution of the
scenario record succeeds on that second candidate (exactly two provider
calls), with `is_exact = true`, and a cache entry is created under the key
`"Tel Aviv, Ibn Gabirol, 5, Community Center"`. -/
theorem scenario_matches_actual_tier2 :
    get_coordinates id
        (fun q => if q == "Tel Aviv, Ibn Gabirol 5" then some ((32 : Rat), (34 : Rat)) else none)
        0 [] ⟨"Tel Aviv", "Ibn Gabirol", "5", "Community Center"⟩
      = (some (32, 34),
         [⟨"Tel Aviv, Ibn Gabirol, 5, Community Center", 32, 34, true, 0⟩],
         ["Tel Aviv, Ibn Gabirol 5, Community Center", "Tel Aviv, Ibn Gabirol 5"]) := by
  decide

/-! ## Claim C6 -/

/-- Claim C6: on a cache miss where the provider answers `none` for every
query, `get_coordinates` returns `none`, leaves the table untouched, and an
immediately repeated call submits exactly the same candidate queries again —
every candidate surviving the degenerate-text guard, which is every
candidate when none is degenerate. -/
theorem no_negative_caching (u : String → String) (g : String → Option (Rat × Rat))
    (now now2 : Nat) (db : List CacheRow) (item : Item)
    (hmiss : get_from_cache db (create_address_key item) = none)
    (hg : ∀ q, g q = none) :
    get_coordinates u g now db item = (none, db, attempted (all_queries u item))
    ∧ get_coordinates u g now2 db item = (none, db, attempted (all_queries u item))
    ∧ ((∀ p ∈ all_queries u item, ¬(p.1 = "" ∨ pyStrip p.1 = ",")) →
        attempted (all_queries u item) = (all_queries u item).map Prod.fst) := by
  refine ⟨?_, ?_, attempted_full _⟩
  · simp [get_coordinates, hmiss, tryQueries_all_none g db _ now hg]
  · simp [get_coordinates, hmiss, tryQueries_all_none g db _ now2 hg]

/-- Claim C6 (witness): the all-miss run at the fully populated scenario
record against an always-`none` provider. -/
theorem no_negative_caching_witness :
    get_coordinates id (fun _ => none) 0 []
        ⟨"Tel Aviv", "Ibn Gabirol", "5", "Community Center"⟩
      = (none, [],
         attempted (all_queries id ⟨"Tel Aviv", "Ibn Gabirol", "5", "Community Center"⟩)) :=
  (no_negative_caching id (fun _ => none) 0 1 []
    ⟨"Tel Aviv", "Ibn Gabirol", "5", "Community Center"⟩ rfl (fun _ => rfl)).1

/-! ## Claim C7 -/

/-- Claim C7 (counterexample): a transport failure is not raised as a
distinct `ProviderError` — `google_geocode` catches the request exception and
returns the very same normal outcome `none` as a `ZERO_RESULTS` response. -/
theorem transport_failure_not_distinct :
    google_geocode ApiResponse.transportFailure
      = google_geocode (ApiResponse.ok ⟨"ZERO_RESULTS", []⟩)
    ∧ google_geocode ApiResponse.transportFailure = none := by
  decide

/-- Claim C7 (amended): `google_geocode` classifies a zero-results response
as `none`; transport failures and malformed bodies are caught internally and
also mapped to `none`, indistinguishable from zero results to the caller (no
`ProviderError` exists); coordinates are returned only from an `OK` response
with a non-empty result list. -/
theorem google_geocode_classification :
    (∀ (status : String) (results : List (Rat × Rat)),
      status ≠ "OK" ∨ results = [] →
      google_geocode (ApiResponse.ok ⟨status, results⟩) = none)
    ∧ google_geocode ApiResponse.transportFailure = none
    ∧ google_geocode ApiResponse.malformed = none
    ∧ (∀ (resp : ApiResponse) (c : Rat × Rat), google_geocode resp = some c →
        ∃ (status : String) (results : List (Rat × Rat)),
          resp = ApiResponse.ok ⟨status, results⟩ ∧ status = "OK"
            ∧ results.head? = some c) := by
  refine ⟨?_, rfl, rfl, ?_⟩
  · intro status results h
    rcases h with h | h
    · simp [google_geocode, h]
    · simp [google_geocode, h]
  · intro resp c h
    cases resp with
    | ok data =>
      obtain ⟨status, results⟩ := data
      by_cases hc : status = "OK" ∧ results ≠ []
      · refine ⟨status, results, rfl, hc.1, ?_⟩
        simpa [google_geocode, hc] using h
      · simp [google_geocode, hc] at h
    | transportFailure => simp [google_geocode] at h
    | malformed => simp [google_geocode] at h

/-- Claim C7 (witness): the classification theorem at a `ZERO_RESULTS`
response carrying a (ignored) location. -/
theorem google_geocode_classification_witness :
    google_geocode (ApiResponse.ok ⟨"ZERO_RESULTS", [((1 : Rat), (2 : Rat))]⟩) = none :=
  google_geocode_classification.1 "ZERO_RESULTS" [(1, 2)] (Or.inl (by decide))

/-! ## Claim C8 -/

/-- Claim C8 (counterexample): within one resolution the same candidate text
is submitted to the provider twice — for the already-Latin City-only record
`"Tel Aviv"` with an all-miss provider, the native list and the
transliterated list each contribute `"Tel Aviv"`, and the combined submission
list is not duplicate-free. -/
theorem duplicate_candidate_submitted :
    (get_coordinates id (fun _ => none) 0 [] ⟨"Tel Aviv", "", "", ""⟩).2.2
      = ["Tel Aviv", "Tel Aviv"]
    ∧ ¬ ((get_coordinates id (fun _ => none) 0 [] ⟨"Tel Aviv", "", "", ""⟩).2.2).Nodup := by
  decide

/-- Claim C8 (amended): duplicate texts are removed within each script
variant — each `_generate_queries` output is duplicate-free — but the native
and transliterated lists are concatenated without cross-variant
deduplication, so whenever transliteration leaves the fields unchanged the
combined list repeats every candidate. -/
theorem dedup_within_variant_only :
    (∀ (u : String → String) (item : Item) (b : Bool),
      ((generate_queries u item b).map Prod.fst).Nodup)
    ∧ (∀ (u : String → String) (item : Item), (∀ s, u s = s) →
        generate_queries u item true = generate_queries u item false) := by
  constructor
  · intro u item b
    exact (dedupQueries_nodup _ _).1
  · intro u item h
    simp [generate_queries, h]

/-- Claim C8 (witness): for an already-Latin record the transliterated
candidate list coincides with the native one. -/
theorem dedup_within_variant_only_witness :
    generate_queries id ⟨"Tel Aviv", "Ibn Gabirol", "5", ""⟩ true
      = generate_queries id ⟨"Tel Aviv", "Ibn Gabirol", "5", ""⟩ false :=
  dedup_within_variant_only.2 id ⟨"Tel Aviv", "Ibn Gabirol", "5", ""⟩ (fun _ => rfl)

/-! ## Claim C9 -/

/-- Claim C9: `save_to_cache` is an upsert — after a save, the table holds
exactly one row for the key, namely the saved one; saving the same
key/coordinates again collapses to a single save (idempotent end state);
two saves differing only in time differ only in the timestamp column; and
the primary-key uniqueness of keys is preserved. -/
theorem cache_upsert :
    (∀ (db : List CacheRow) (k : String) (la lo : Rat) (e : Bool) (t : Nat),
      (save_to_cache db k la lo e t).filter (fun r => r.key == k) = [⟨k, la, lo, e, t⟩])
    ∧ (∀ (db : List CacheRow) (k : String) (la lo : Rat) (e : Bool) (t1 t2 : Nat),
      save_to_cache (save_to_cache db k la lo e t1) k la lo e t2
        = save_to_cache db k la lo e t2)
    ∧ (∀ (db : List CacheRow) (k : String) (la lo : Rat) (e : Bool) (t1 t2 : Nat),
      (save_to_cache db k la lo e t1).map rowData
        = (save_to_cache db k la lo e t2).map rowData)
    ∧ (∀ (db : List CacheRow) (k : String) (la lo : Rat) (e : Bool) (t : Nat),
      cacheKeysUnique db → cacheKeysUnique (save_to_cache db k la lo e t)) := by
  refine ⟨?_, ?_, ?_, ?_⟩
  · intro db k la lo e t
    simp [save_to_cache, List.filter_append, filter_eq_of_filter_ne]
  · intro db k la lo e t1 t2
    simp [save_to_cache, List.filter_append, filter_ne_idem]
  · intro db k la lo e t1 t2
    simp [save_to_cache, rowData]
  · intro db k la lo e t hdb
    unfold cacheKeysUnique at hdb ⊢
    rw [save_to_cache, List.map_append, List.map_singleton]
    rw [List.nodup_append]
    refine ⟨hdb.sublist (List.Sublist.map _ (List.filter_sublist _)),
      List.nodup_singleton _, ?_⟩
    intro x hx
    simp only [List.mem_map, List.mem_filter] at hx
    obtain ⟨r, ⟨hr, hne⟩, hxe⟩ := hx
    simp only [List.mem_singleton]
    intro hxk
    subst hxe
    rw [hxk] at hne
    simp at hne

/-- Claim C9 (witness): saving a fresh key into a one-row table with unique
keys keeps the keys unique. -/
theorem cache_upsert_witness :
    cacheKeysUnique (save_to_cache [⟨"a", 5, 6, true, 3⟩] "k" 1 2 true 0) :=
  cache_upsert.2.2.2 [⟨"a", 5, 6, true, 3⟩] "k" 1 2 true 0
    (by unfold cacheKeysUnique; decide)

/-! ## Claim C10 -/

/-- Claim C10: when the City field trims to the empty string (and the
transliteration of the empty string is empty, as `unidecode`'s is), both
script variants of `_generate_queries` are empty, so absent a pre-existing
cache entry for the degenerate key `get_coordinates` makes zero provider
calls, writes nothing, and returns `none`. -/
theorem empty_city_resolves_nothing (u : String → String)
    (g : String → Option (Rat × Rat)) (now : Nat) (db : List CacheRow) (item : Item)
    (hcity : pyStrip item.City = "") (hu : u "" = "") :
    generate_queries u item false = [] ∧ generate_queries u item true = [] ∧
    (get_from_cache db (create_address_key item) = none →
      get_coordinates u g now db item = (none, db, [])) := by
  have h1 : generate_queries u item false = [] := by
    simp [generate_queries, hcity, dedupQueries]
  have h2 : generate_queries u item true = [] := by
    simp [generate_queries, hcity, hu, dedupQueries]
  refine ⟨h1, h2, fun hmiss => ?_⟩
  simp [get_coordinates, hmiss, all_queries, h1, h2, tryQueries]

/-- Claim C10 (witness): a whitespace-only City with street, number and name
populated still resolves to nothing, without consulting the (always
answering) provider. -/
theorem empty_city_resolves_nothing_witness :
    get_coordinates id (fun _ => some ((7 : Rat), (8 : Rat))) 0 []
        ⟨"   ", "Herzl", "10", "Clinic"⟩ = (none, [], []) :=
  (empty_city_resolves_nothing id _ 0 [] ⟨"   ", "Herzl", "10", "Clinic"⟩
    (by decide) rfl).2.2 rfl

end BloodDonation
